import Mathlib

/-!
Verification of `src/RaydiumSwap.ts` (dorucioclea/raydium-swap).

The TypeScript class `RaydiumSwap` is shallowly embedded below.  Mint
addresses and other base58 strings are modelled as `String`; numeric
quantities as `Nat`.  Calls into the external `@raydium-io/raydium-sdk`
and into the node client (`@solana/web3.js`) are modelled as explicit
function parameters, so that theorems quantify over every possible
behaviour of those external libraries.  Methods that read or write
fields of `this` are embedded in state-passing style over
`RaydiumSwapState`.
-/

namespace RaydiumSwap

/-- A mint address (base58 string), as used by the pool registry. -/
abbrev Mint := String

/-- Registry entry for one liquidity pool
(`LiquidityPoolJsonInfo` of the SDK).  The lookup logic in
`findPoolInfoForTokens` reads only `baseMint` and `quoteMint`; the many
remaining registry fields are kept opaque in `rest`. -/
structure LiquidityPoolJsonInfo where
  baseMint : Mint
  quoteMint : Mint
  rest : String
  deriving DecidableEq, Repr

/-- Resolved on-chain pool key set (`LiquidityPoolKeys` of the SDK). -/
structure LiquidityPoolKeys where
  baseMint : Mint
  quoteMint : Mint
  rest : String
  deriving DecidableEq, Repr

/-- The SDK conversion `jsonInfo2PoolKeys`: resolves a registry entry
into a pool key set (string addresses become `PublicKey`s; here the
fields carry over unchanged). -/
def jsonInfo2PoolKeys (i : LiquidityPoolJsonInfo) : LiquidityPoolKeys :=
  ⟨i.baseMint, i.quoteMint, i.rest⟩

/-- The matching predicate of `findPoolInfoForTokens` (line 36):
`i.baseMint === mintA && i.quoteMint === mintB || i.baseMint === mintB && i.quoteMint === mintA`. -/
def poolMatches (i : LiquidityPoolJsonInfo) (mintA mintB : Mint) : Bool :=
  (i.baseMint == mintA && i.quoteMint == mintB) ||
    (i.baseMint == mintB && i.quoteMint == mintA)

/-- `findPoolInfoForTokens` (lines 35-41), as a function of the loaded
pool list: linear-scan (`Array.prototype.find`) for the first entry
matching the pair in either order; `null` when none matches, otherwise
the entry converted by `jsonInfo2PoolKeys`. -/
def findPoolInfoForTokens (pools : List LiquidityPoolJsonInfo) (mintA mintB : Mint) :
    Option LiquidityPoolKeys :=
  (pools.find? fun i => poolMatches i mintA mintB).map jsonInfo2PoolKeys

/-- A `web3.js` public key, carrying its base58 form. -/
structure PublicKey where
  key : String
  deriving DecidableEq, Repr

/-- `PublicKey.default` of `web3.js`: the all-zero key. -/
def PublicKey.default : PublicKey :=
  ⟨"11111111111111111111111111111111"⟩

/-- The SPL token program id constant imported from the SDK. -/
def TOKEN_PROGRAM_ID : String :=
  "TokenkegQfeZYiNwAJbNbGKPFXCWuBvf9Ss623VQ5DA"

/-- A transaction to be submitted, opaque to this client. -/
abbrev Transaction := String

/-- A signer (keypair) passed to the node client. -/
abbrev Signer := String

/-- A transaction id returned by the node client. -/
abbrev TxId := String

/-- The anchor `Wallet`: holds the payer keypair and its public key. -/
structure Wallet where
  payer : Signer
  publicKey : PublicKey
  deriving DecidableEq, Repr

/-- The `web3.js` `Connection`, as configured by the constructor
(line 22): an RPC URL and the commitment level. -/
structure Connection where
  rpcUrl : String
  commitment : String
  deriving DecidableEq, Repr

/-- The fields of a `RaydiumSwap` instance (lines 17-19).  The
constructor sets `connection` and `wallet` only; `allPoolKeysJson`
stays undefined (`none`) until `loadPoolKeys` assigns it. -/
structure RaydiumSwapState where
  allPoolKeysJson : Option (List LiquidityPoolJsonInfo)
  connection : Connection
  wallet : Wallet
  deriving DecidableEq, Repr

/-- The registry fetch outcome seen by `loadPoolKeys`: the HTTP `ok`
flag and, in the parsed JSON body, the `official` and `unOfficial`
arrays (`none` models a missing or null array, absorbed by `?? []`). -/
structure FetchResponse where
  ok : Bool
  official : Option (List LiquidityPoolJsonInfo)
  unOfficial : Option (List LiquidityPoolJsonInfo)
  deriving DecidableEq, Repr

/-- `loadPoolKeys` (lines 26-33), as a function of the fetch outcome.
If the response is not ok it returns `[]` early, leaving the state
untouched; otherwise it builds `[...official, ...unOfficial]`, assigns
it to `this.allPoolKeysJson`, and resolves with no value (`none`). -/
def loadPoolKeys (resp : FetchResponse) (s : RaydiumSwapState) :
    RaydiumSwapState × Option (List LiquidityPoolJsonInfo) :=
  if !resp.ok then (s, some [])
  else
    let allPoolKeysJson := resp.official.getD [] ++ resp.unOfficial.getD []
    (⟨some allPoolKeysJson, s.connection, s.wallet⟩, none)

/-- `findPoolInfoForTokens` as the method on the instance state: reads
`this.allPoolKeysJson`.  The outer `none` models the `TypeError` thrown
when the field was never assigned. -/
def findPoolInfoForTokensM (s : RaydiumSwapState) (mintA mintB : Mint) :
    Option (Option LiquidityPoolKeys) × RaydiumSwapState :=
  (s.allPoolKeysJson.map fun pools => findPoolInfoForTokens pools mintA mintB, s)

/-- On-chain pool reserve state fetched by `Liquidity.fetchInfo`; the
local code reads its `baseDecimals` and `quoteDecimals` and passes the
whole record to the SDK computation. -/
structure LiquidityPoolInfo where
  baseDecimals : Nat
  quoteDecimals : Nat
  baseReserve : Nat
  quoteReserve : Nat
  deriving DecidableEq, Repr

/-- The SDK `Token`: a token program id, a mint and a decimal count. -/
structure Token where
  programId : String
  mint : Mint
  decimals : Nat
  deriving DecidableEq, Repr

/-- The SDK `TokenAmount` constructor arguments: token, amount, and the
`isRaw` flag (the code passes `false`, meaning human units). -/
structure TokenAmount where
  token : Token
  amount : Nat
  isRaw : Bool
  deriving DecidableEq, Repr

/-- The SDK `Percent`, as built by `new Percent(5, 100)`. -/
structure Percent where
  numerator : Nat
  denominator : Nat
  deriving DecidableEq, Repr

/-- The argument record the code passes to the SDK function
`Liquidity.computeAmountOut` (line 141). -/
structure ComputeAmountOutArgs where
  poolKeys : LiquidityPoolKeys
  poolInfo : LiquidityPoolInfo
  amountIn : TokenAmount
  currencyOut : Token
  slippage : Percent
  deriving DecidableEq, Repr

/-- The fields destructured from the SDK result of
`Liquidity.computeAmountOut` (lines 134-140); their values are opaque
to the local code, so each is modelled as a bare number. -/
structure ComputeAmountOutResult where
  amountOut : Nat
  minAmountOut : Nat
  currentPrice : Nat
  executionPrice : Nat
  priceImpact : Nat
  fee : Nat
  deriving DecidableEq, Repr

/-- The object returned by `calcAmountOut` (lines 143-151). -/
structure CalcAmountOutResult where
  amountIn : TokenAmount
  amountOut : Nat
  minAmountOut : Nat
  currentPrice : Nat
  executionPrice : Nat
  priceImpact : Nat
  fee : Nat
  deriving DecidableEq, Repr

/-- Lines 117-132 of `calcAmountOut`: the in/out currency selection and
the argument record passed to `Liquidity.computeAmountOut`.  The code
initialises the in side to base and the out side to quote, then
overwrites all four variables when `!swapInDirection`; each `if` below
reproduces one variable's final value.  `amountIn` is
`new TokenAmount(currencyIn, rawAmountIn, false)` and `slippage` is
`new Percent(5, 100)`. -/
def calcAmountOutArgs (poolKeys : LiquidityPoolKeys) (poolInfo : LiquidityPoolInfo)
    (rawAmountIn : Nat) (swapInDirection : Bool) : ComputeAmountOutArgs :=
  let currencyInMint := if !swapInDirection then poolKeys.quoteMint else poolKeys.baseMint
  let currencyInDecimals := if !swapInDirection then poolInfo.quoteDecimals else poolInfo.baseDecimals
  let currencyOutMint := if !swapInDirection then poolKeys.baseMint else poolKeys.quoteMint
  let currencyOutDecimals := if !swapInDirection then poolInfo.baseDecimals else poolInfo.quoteDecimals
  let currencyIn : Token := ⟨TOKEN_PROGRAM_ID, currencyInMint, currencyInDecimals⟩
  let amountIn : TokenAmount := ⟨currencyIn, rawAmountIn, false⟩
  let currencyOut : Token := ⟨TOKEN_PROGRAM_ID, currencyOutMint, currencyOutDecimals⟩
  let slippage : Percent := ⟨5, 100⟩
  ⟨poolKeys, poolInfo, amountIn, currencyOut, slippage⟩

/-- `calcAmountOut` (lines 114-152) given the fetched pool info.  The
SDK computation is the parameter `computeAmountOut`, so the theorems
below hold for every behaviour of the SDK.  The result repackages the
locally built `amountIn` with the six fields of the SDK result. -/
def calcAmountOut (computeAmountOut : ComputeAmountOutArgs → ComputeAmountOutResult)
    (poolKeys : LiquidityPoolKeys) (poolInfo : LiquidityPoolInfo)
    (rawAmountIn : Nat) (swapInDirection : Bool) : CalcAmountOutResult :=
  let args := calcAmountOutArgs poolKeys poolInfo rawAmountIn swapInDirection
  let r := computeAmountOut args
  ⟨args.amountIn, r.amountOut, r.minAmountOut, r.currentPrice, r.executionPrice,
    r.priceImpact, r.fee⟩

/-- `calcAmountOut` as the method on the instance state: line 115
fetches the pool info through `this.connection` (the fetch is the
parameter `fetchInfo`); the method assigns no field, so the state is
returned unchanged. -/
def calcAmountOutM (fetchInfo : Connection → LiquidityPoolKeys → LiquidityPoolInfo)
    (computeAmountOut : ComputeAmountOutArgs → ComputeAmountOutResult)
    (s : RaydiumSwapState) (poolKeys : LiquidityPoolKeys)
    (rawAmountIn : Nat) (swapInDirection : Bool) :
    CalcAmountOutResult × RaydiumSwapState :=
  let poolInfo := fetchInfo s.connection poolKeys
  (calcAmountOut computeAmountOut poolKeys poolInfo rawAmountIn swapInDirection, s)

/-- The `accountInfo` field of the placeholder token account. -/
structure TokenAccountInfo where
  mint : PublicKey
  amount : Nat
  deriving DecidableEq, Repr

/-- The SDK `TokenAccount`, as far as this code builds one. -/
structure TokenAccount where
  programId : String
  pubkey : PublicKey
  accountInfo : TokenAccountInfo
  deriving DecidableEq, Repr

/-- `getTokenAccountByOwnerAndMint` (lines 103-112).  It takes the
instance state as the embedding of `this` but builds the placeholder
account from the mint alone. -/
def getTokenAccountByOwnerAndMint (s : RaydiumSwapState) (mint : PublicKey) : TokenAccount :=
  ⟨TOKEN_PROGRAM_ID, PublicKey.default, ⟨mint, 0⟩⟩

/-- The `userKeys`, amount, side and compute-budget arguments the code
passes to `Liquidity.makeSwapInstructionSimple` (lines 50-69). -/
structure SwapInstructionArgs where
  tokenAccounts : List TokenAccount
  owner : PublicKey
  amountIn : TokenAmount
  amountOut : Nat
  fixedSide : String
  bypassAssociatedCheck : Bool
  microLamports : Nat
  deriving DecidableEq, Repr

/-- The quoting and instruction-argument part of `getSwapTransaction`
(lines 44-69): quote via `calcAmountOut(poolKeys, amount, false)`,
build the from/to placeholder accounts, and assemble the
`makeSwapInstructionSimple` arguments with `amountIn` from the quote,
`amountOut` the quote's `minAmountOut`, `fixedSide: "in"` and
`microLamports: maxLamports`.  The remainder of the method (block hash
fetch and transaction envelope assembly, lines 71-81) is pure
delegation that no claim concerns. -/
def getSwapTransaction (fetchInfo : Connection → LiquidityPoolKeys → LiquidityPoolInfo)
    (computeAmountOut : ComputeAmountOutArgs → ComputeAmountOutResult)
    (s : RaydiumSwapState) (fromToken toToken : Mint) (amount : Nat)
    (poolKeys : LiquidityPoolKeys) (maxLamports : Nat) : SwapInstructionArgs :=
  let quote := (calcAmountOutM fetchInfo computeAmountOut s poolKeys amount false).1
  let fromAccount := getTokenAccountByOwnerAndMint s ⟨fromToken⟩
  let toAccount := getTokenAccountByOwnerAndMint s ⟨toToken⟩
  ⟨[fromAccount, toAccount], s.wallet.publicKey, quote.amountIn, quote.minAmountOut,
    "in", false, maxLamports⟩

/-- The options object passed to `connection.sendTransaction`. -/
structure SendOptions where
  skipPreflight : Bool
  maxRetries : Nat
  deriving DecidableEq, Repr

/-- `sendTransaction` (lines 84-93): submits through
`this.connection.sendTransaction` (the parameter `send`) with the
wallet payer as sole signer, `skipPreflight: true` and `maxRetries: 2`,
and returns the resulting txid unchanged. -/
def sendTransaction (send : Transaction → List Signer → SendOptions → TxId)
    (s : RaydiumSwapState) (tx : Transaction) : TxId :=
  send tx [s.wallet.payer] ⟨true, 2⟩

/-- A sample registry entry for concrete witnesses. -/
def samplePool : LiquidityPoolJsonInfo := ⟨"mintA", "mintB", "restOfEntry"⟩

/-- A sample instance state whose pool list is already loaded. -/
def sampleState : RaydiumSwapState :=
  ⟨some [samplePool], ⟨"https://rpc.example", "confirmed"⟩, ⟨"payerKey", ⟨"ownerKey"⟩⟩⟩

/-- A failed registry fetch (HTTP response not ok). -/
def failResp : FetchResponse := ⟨false, none, none⟩

/-- A successful registry fetch carrying one official entry and an
absent unOfficial array. -/
def okResp : FetchResponse := ⟨true, some [samplePool], none⟩

/-- C1: pool lookup is symmetric in the token pair: on every loaded pool
list, looking up `(a, b)` and `(b, a)` returns the same pool key set. -/
theorem findPoolInfoForTokens_symm (pools : List LiquidityPoolJsonInfo) (a b : Mint) :
    findPoolInfoForTokens pools a b = findPoolInfoForTokens pools b a := by
  unfold findPoolInfoForTokens
  have h : (fun i => poolMatches i a b) = (fun i => poolMatches i b a) := by
    funext i
    unfold poolMatches
    exact Bool.or_comm _ _
  rw [h]

/-- C7: `findPoolInfoForTokens` returns `null` exactly when no entry of
the loaded pool list matches the requested pair in either order. -/
theorem findPoolInfoForTokens_eq_none_iff (pools : List LiquidityPoolJsonInfo) (a b : Mint) :
    findPoolInfoForTokens pools a b = none ↔ ∀ i ∈ pools, poolMatches i a b = false := by
  unfold findPoolInfoForTokens
  rw [Option.map_eq_none', List.find?_eq_none]
  simp

/-- C2: the swap-direction flag of `calcAmountOut` selects which side of
the pool is the input: with `swapInDirection = true` the input currency
is the base mint with the base decimals and the output currency the
quote mint with the quote decimals; with `swapInDirection = false` the
assignments are exactly exchanged. -/
theorem calcAmountOut_direction (poolKeys : LiquidityPoolKeys)
    (poolInfo : LiquidityPoolInfo) (rawAmountIn : Nat) :
    (calcAmountOutArgs poolKeys poolInfo rawAmountIn true).amountIn.token.mint
        = poolKeys.baseMint ∧
    (calcAmountOutArgs poolKeys poolInfo rawAmountIn true).amountIn.token.decimals
        = poolInfo.baseDecimals ∧
    (calcAmountOutArgs poolKeys poolInfo rawAmountIn true).currencyOut.mint
        = poolKeys.quoteMint ∧
    (calcAmountOutArgs poolKeys poolInfo rawAmountIn true).currencyOut.decimals
        = poolInfo.quoteDecimals ∧
    (calcAmountOutArgs poolKeys poolInfo rawAmountIn false).amountIn.token.mint
        = poolKeys.quoteMint ∧
    (calcAmountOutArgs poolKeys poolInfo rawAmountIn false).amountIn.token.decimals
        = poolInfo.quoteDecimals ∧
    (calcAmountOutArgs poolKeys poolInfo rawAmountIn false).currencyOut.mint
        = poolKeys.baseMint ∧
    (calcAmountOutArgs poolKeys poolInfo rawAmountIn false).currencyOut.decimals
        = poolInfo.baseDecimals :=
  ⟨rfl, rfl, rfl, rfl, rfl, rfl, rfl, rfl⟩

/-- C3 counterexample: after a failed fetch, `loadPoolKeys` does not set
`allPoolKeysJson` to the empty list — on a state holding a previously
loaded entry the field keeps that entry, and a subsequent lookup of its
pair returns the pool, not null. -/
theorem loadPoolKeys_failure_counterexample :
    (loadPoolKeys failResp sampleState).1.allPoolKeysJson ≠ some [] ∧
    (findPoolInfoForTokensM (loadPoolKeys failResp sampleState).1 "mintA" "mintB").1
      = some (some (jsonInfo2PoolKeys samplePool)) :=
  ⟨by decide, rfl⟩

/-- C3 amended: when the registry fetch fails, `loadPoolKeys` returns
the empty list as its own result but leaves the instance state — in
particular `allPoolKeysJson` — unchanged, so a subsequent
`findPoolInfoForTokens` still answers from the previously loaded list
(or throws if none was ever loaded). -/
theorem loadPoolKeys_failure_keeps_state (resp : FetchResponse)
    (s : RaydiumSwapState) (h : resp.ok = false) :
    loadPoolKeys resp s = (s, some []) := by
  simp [loadPoolKeys, h]

/-- Witness for the C3 amended theorem at a concrete failed fetch. -/
theorem loadPoolKeys_failure_keeps_state_witness :
    loadPoolKeys failResp sampleState = (sampleState, some []) :=
  loadPoolKeys_failure_keeps_state failResp sampleState rfl

/-- C4: `getSwapTransaction` quotes with `swapInDirection` fixed to
`false`, for every `fromToken` and `toToken`: its quoted `amountIn` is
the one of `calcAmountOut(poolKeys, amount, false)`, denominated in the
pool's quote mint with the fetched quote decimals — even when
`fromToken` is the pool's base mint. -/
theorem getSwapTransaction_quotes_direction_false
    (fetchInfo : Connection → LiquidityPoolKeys → LiquidityPoolInfo)
    (computeAmountOut : ComputeAmountOutArgs → ComputeAmountOutResult)
    (s : RaydiumSwapState) (fromToken toToken : Mint) (amount : Nat)
    (poolKeys : LiquidityPoolKeys) (maxLamports : Nat) :
    (getSwapTransaction fetchInfo computeAmountOut s fromToken toToken amount
        poolKeys maxLamports).amountIn
      = (calcAmountOutM fetchInfo computeAmountOut s poolKeys amount false).1.amountIn ∧
    (getSwapTransaction fetchInfo computeAmountOut s fromToken toToken amount
        poolKeys maxLamports).amountIn.token.mint = poolKeys.quoteMint ∧
    (getSwapTransaction fetchInfo computeAmountOut s fromToken toToken amount
        poolKeys maxLamports).amountIn.token.decimals
      = (fetchInfo s.connection poolKeys).quoteDecimals :=
  ⟨rfl, rfl, rfl⟩

/-- C5: every quote uses the fixed slippage `Percent(5, 100)`,
independent of pool, amount and direction, and the `minAmountOut`
returned by `calcAmountOut` is exactly the SDK's computed minimum
output for that fixed tolerance. -/
theorem calcAmountOut_fixed_slippage
    (computeAmountOut : ComputeAmountOutArgs → ComputeAmountOutResult)
    (poolKeys : LiquidityPoolKeys) (poolInfo : LiquidityPoolInfo)
    (rawAmountIn : Nat) (swapInDirection : Bool) :
    (calcAmountOutArgs poolKeys poolInfo rawAmountIn swapInDirection).slippage
      = (⟨5, 100⟩ : Percent) ∧
    (calcAmountOut computeAmountOut poolKeys poolInfo rawAmountIn swapInDirection).minAmountOut
      = (computeAmountOut
          (calcAmountOutArgs poolKeys poolInfo rawAmountIn swapInDirection)).minAmountOut :=
  ⟨rfl, rfl⟩

/-- C6: on a successful fetch, the loaded pool list is exactly the
`official` array followed by the `unOfficial` array, a missing or null
array counting as empty; concatenation drops, reorders and
deduplicates nothing. -/
theorem loadPoolKeys_success_concat (resp : FetchResponse)
    (s : RaydiumSwapState) (h : resp.ok = true) :
    (loadPoolKeys resp s).1.allPoolKeysJson
      = some (resp.official.getD [] ++ resp.unOfficial.getD []) := by
  simp [loadPoolKeys, h]

/-- Witness for C6 at a concrete successful fetch. -/
theorem loadPoolKeys_success_concat_witness :
    (loadPoolKeys okResp sampleState).1.allPoolKeysJson
      = some ((okResp.official).getD [] ++ (okResp.unOfficial).getD []) :=
  loadPoolKeys_success_concat okResp sampleState rfl

/-- C8: `getTokenAccountByOwnerAndMint` is a pure function of the mint:
its result does not depend on the instance state, and it is the
placeholder account with the SPL token program id, the default public
key, the given mint and amount 0. -/
theorem getTokenAccountByOwnerAndMint_pure (s t : RaydiumSwapState) (mint : PublicKey) :
    getTokenAccountByOwnerAndMint s mint = getTokenAccountByOwnerAndMint t mint ∧
    (getTokenAccountByOwnerAndMint s mint).programId = TOKEN_PROGRAM_ID ∧
    (getTokenAccountByOwnerAndMint s mint).pubkey = PublicKey.default ∧
    (getTokenAccountByOwnerAndMint s mint).accountInfo.mint = mint ∧
    (getTokenAccountByOwnerAndMint s mint).accountInfo.amount = 0 :=
  ⟨rfl, rfl, rfl, rfl, rfl⟩

/-- C9: quote computation and pool lookup leave the instance state —
`allPoolKeysJson`, `connection` and `wallet` — unchanged, for every SDK
behaviour and every input; the quote is only returned, never stored. -/
theorem calcAmountOut_findPool_frame
    (fetchInfo : Connection → LiquidityPoolKeys → LiquidityPoolInfo)
    (computeAmountOut : ComputeAmountOutArgs → ComputeAmountOutResult)
    (s : RaydiumSwapState) (poolKeys : LiquidityPoolKeys)
    (rawAmountIn : Nat) (swapInDirection : Bool) (a b : Mint) :
    (calcAmountOutM fetchInfo computeAmountOut s poolKeys rawAmountIn swapInDirection).2 = s ∧
    (findPoolInfoForTokensM s a b).2 = s :=
  ⟨rfl, rfl⟩

/-- C10: `sendTransaction` submits the transaction through the node
client with the wallet payer as sole signer, preflight skipped and a
fixed retry count of 2, and returns the node client's txid unchanged;
no further logic is applied. -/
theorem sendTransaction_delegates (send : Transaction → List Signer → SendOptions → TxId)
    (s : RaydiumSwapState) (tx : Transaction) :
    sendTransaction send s tx = send tx [s.wallet.payer] ⟨true, 2⟩ :=
  rfl

end RaydiumSwap
